import Mathlib

/-!
Verification of the Forecast Alert & Favorites Engine of a weather PWA.

The source is a single React component file.  Its core logic is pure and is
embedded shallowly here:

* timestamps (`Date.getTime()` values) are modelled as `Int` (epoch
  milliseconds);
* JS numbers occurring in comparisons and `Math.round` (temperatures,
  precipitation percentages) are modelled as `ℚ`; `Math.round` is Mathlib's
  `round` (both are `⌊x + 1/2⌋`);
* an absent array element / JSON `null` is `Option.none`;
* the browser `Notification` / service-worker machinery is modelled as an
  environment record plus an event trace;
* React `useState` state is an explicit `AppState` record, and asynchronous
  handlers are decomposed into their synchronous blocks (the code between
  `await` suspension points) so interleavings can be analysed.
-/

namespace Meteo

/-- `CONFIG.RAIN_CODES` from the source (the contents of `RAIN_CODES_SET`). -/
def RAIN_CODES : List Int :=
  [51, 53, 55, 56, 57, 61, 63, 65, 66, 67, 71, 73, 75, 77, 80, 81, 82, 85, 86,
   95, 96, 99]

/-- `CONFIG.TEMP_THRESHOLD` from the source. -/
def TEMP_THRESHOLD : ℚ := 10

/-- `HOUR_LOOKAHEAD` from the source. -/
def HOUR_LOOKAHEAD : Nat := 4

/-- The `hourly` part of `WeatherResponse`: parallel arrays indexed by hour.
`precipitation_probability` entries model `number | null | undefined`
(the source reads them with `hourly.precipitation_probability?.[i] ?? null`),
so an entry is an `Option ℚ` and reading past the end yields `none`. -/
structure HourlyData where
  time : List Int
  temperature_2m : List ℚ
  weather_code : List Int
  precipitation_probability : List (Option ℚ)
deriving DecidableEq

/-- `HourlySlice` from the source; `date` is the slot's epoch-millisecond
timestamp (`new Date(hourly.time[i]).getTime()`). -/
structure HourlySlice where
  date : Int
  temperature : ℚ
  weatherCode : Int
  precipitation : Option ℚ
deriving DecidableEq

/-- The slice the loop body of `getNextHours` builds for index `i`
(`{ date, temperature: hourly.temperature_2m[i], weatherCode:
hourly.weather_code[i], precipitation:
hourly.precipitation_probability?.[i] ?? null }`).  Out-of-range numeric
reads never occur in the source under the parallel-array invariant; they
default to `0` here. -/
def sliceAt (h : HourlyData) (i : Nat) : HourlySlice :=
  { date := h.time.getD i 0
    temperature := h.temperature_2m.getD i 0
    weatherCode := h.weather_code.getD i 0
    precipitation := h.precipitation_probability.getD i none }

/-- The loop of `getNextHours`: walk the samples in order, skip those with
`slotTime <= now` (`if (slotTime <= now) continue`), push the rest, and stop
as soon as `slices.length === count` right after a push.  `collected` is the
number of slices pushed so far. -/
def collectSlices (now : Int) (count : Nat) :
    List HourlySlice → Nat → List HourlySlice
  | [], _ => []
  | s :: rest, collected =>
    if s.date ≤ now then collectSlices now count rest collected
    else if collected + 1 = count then [s]
    else s :: collectSlices now count rest (collected + 1)

/-- `getNextHours(hourly, count)` from the source.  The source reads
`now = Date.now()` inside the function; here `now` is an explicit argument. -/
def getNextHours (h : HourlyData) (now : Int) (count : Nat := HOUR_LOOKAHEAD) :
    List HourlySlice :=
  collectSlices now count ((List.range h.time.length).map (sliceAt h)) 0

/-- Keep-predicate of the loop: a sample qualifies iff its slot time is
strictly after `now`. -/
def afterNow (now : Int) (s : HourlySlice) : Bool :=
  decide (now < s.date)

theorem collectSlices_eq_take (now : Int) (count : Nat) :
    ∀ (l : List HourlySlice) (collected : Nat), collected < count →
      collectSlices now count l collected =
        (l.filter (afterNow now)).take (count - collected)
  | [], _, _ => by simp [collectSlices]
  | s :: rest, collected, hlt => by
    by_cases hle : s.date ≤ now
    · have hkeep : afterNow now s = false := by
        simp [afterNow, not_lt.mpr hle]
      rw [collectSlices, if_pos hle, List.filter_cons, hkeep]
      simpa using collectSlices_eq_take now count rest collected hlt
    · have hkeep : afterNow now s = true := by
        simp [afterNow, lt_of_not_le hle]
      rw [collectSlices, if_neg hle, List.filter_cons, hkeep]
      by_cases hfull : collected + 1 = count
      · have h1 : count - collected = 1 := by omega
        simp [hfull, h1]
      · have hlt' : collected + 1 < count := by omega
        have hsub : count - collected = (count - (collected + 1)) + 1 := by
          omega
        rw [if_neg hfull, hsub, if_pos rfl, List.take_succ_cons,
          collectSlices_eq_take now count rest (collected + 1) hlt']

theorem mem_collectSlices (now : Int) (count : Nat) :
    ∀ (l : List HourlySlice) (collected : Nat) (s : HourlySlice),
      s ∈ collectSlices now count l collected → s ∈ l ∧ now < s.date
  | [], _, s, hmem => by simp [collectSlices] at hmem
  | x :: rest, collected, s, hmem => by
    rw [collectSlices] at hmem
    by_cases hle : x.date ≤ now
    · rw [if_pos hle] at hmem
      have := mem_collectSlices now count rest collected s hmem
      exact ⟨List.mem_cons_of_mem x this.1, this.2⟩
    · rw [if_neg hle] at hmem
      by_cases hfull : collected + 1 = count
      · rw [if_pos hfull] at hmem
        have hs : s = x := by simpa using hmem
        exact ⟨by simp [hs], hs ▸ lt_of_not_le hle⟩
      · rw [if_neg hfull] at hmem
        rcases List.mem_cons.mp hmem with hs | hmem'
        · exact ⟨by simp [hs], hs ▸ lt_of_not_le hle⟩
        · have := mem_collectSlices now count rest (collected + 1) s hmem'
          exact ⟨List.mem_cons_of_mem x this.1, this.2⟩

theorem countP_range_getD {α : Type} (p : α → Bool) (d : α) :
    ∀ l : List α,
      (List.range l.length).countP (fun i => p (l.getD i d)) = l.countP p
  | [] => by simp
  | a :: l => by
    rw [List.length_cons, List.range_succ_eq_map, List.countP_cons,
      List.countP_map]
    have hrec :
        l.countP p = (List.range l.length).countP (fun i => p (l.getD i d)) :=
      (countP_range_getD p d l).symm
    simp only [List.countP_cons, List.getD_cons_zero, Function.comp_def,
      List.getD_cons_succ]
    rw [hrec]

/-! ### Alert evaluation (`checkAlerts`) -/

inductive AlertKind where
  | rain
  | heat
deriving DecidableEq, BEq

/-- An alert intent, i.e. the decision `checkAlerts` takes before handing a
title/body pair to `sendWeatherNotification`.  `leadTimeHours` is the
`hoursUntil` value embedded in the rain body, `peakTemperature` the
`Math.round(warmSlice.temperature)` embedded in the heat body. -/
structure AlertIntent where
  kind : AlertKind
  location : String
  leadTimeHours : Option Int
  peakTemperature : Option Int
deriving DecidableEq

/-- `RAIN_CODES_SET.has(slice.weatherCode)` from the source. -/
def isRainSlice (s : HourlySlice) : Bool :=
  RAIN_CODES.contains s.weatherCode

/-- `Math.max(1, Math.round((rainSlice.date.getTime() - Date.now()) / 3_600_000))`
from the source; `Math.round` on a JS number agrees with Mathlib's `round`
(`⌊x + 1/2⌋`) on every rational. -/
def leadTime (now : Int) (s : HourlySlice) : Int :=
  max 1 (round (((s.date - now : Int) : ℚ) / 3600000))

/-- `checkAlerts(data, cityLabel)` from the source, with the temperature
threshold (the source's `CONFIG.TEMP_THRESHOLD`) as an explicit parameter and
`Date.now()` as the explicit argument `now`.  The intents are listed in the
order the notifications are sent: rain first, then heat. -/
def checkAlertsWith (thresholdTemp : ℚ) (h : HourlyData) (cityLabel : String)
    (now : Int) : List AlertIntent :=
  let slices := getNextHours h now HOUR_LOOKAHEAD
  let rainSlice := slices.find? isRainSlice
  let warmSlice := slices.find? (fun s => decide (thresholdTemp < s.temperature))
  (match rainSlice with
    | some s =>
        [{ kind := AlertKind.rain, location := cityLabel,
           leadTimeHours := some (leadTime now s), peakTemperature := none }]
    | none => []) ++
  (match warmSlice with
    | some s =>
        [{ kind := AlertKind.heat, location := cityLabel,
           leadTimeHours := none,
           peakTemperature := some (round s.temperature) }]
    | none => [])

/-- `checkAlerts` as in the source: the threshold is `CONFIG.TEMP_THRESHOLD`. -/
def checkAlerts : HourlyData → String → Int → List AlertIntent :=
  checkAlertsWith TEMP_THRESHOLD

/-! ### Notification dispatch (`sendWeatherNotification`) -/

/-- The notification titles the source builds for the two alert kinds
(`Pluie attendue - cityLabel` and `Chaleur a venir - cityLabel`). -/
def alertTitle (k : AlertKind) (cityLabel : String) : String :=
  match k with
  | AlertKind.rain => "Pluie attendue - " ++ cityLabel
  | AlertKind.heat => "Chaleur a venir - " ++ cityLabel

/-- The `tag` field of the `NotificationOptions` the source builds:
`meteo-alert-title`. -/
def notificationTag (title : String) : String :=
  "meteo-alert-" ++ title

/-- The tag an alert of kind `k` for location `cityLabel` is dispatched
under. -/
def alertTag (k : AlertKind) (cityLabel : String) : String :=
  notificationTag (alertTitle k cityLabel)

/-- The platform facts `sendWeatherNotification` branches on: whether the
`Notification` API exists, whether permission is `granted`, whether
`serviceWorker` is in `navigator`, and whether each delivery attempt
succeeds (an `await`ed `showNotification` rejecting, or `new Notification`
throwing, counts as failure). -/
structure NotifyEnv where
  hasNotificationApi : Bool
  permissionGranted : Bool
  hasServiceWorker : Bool
  bgSucceeds : Bool
  fgSucceeds : Bool
deriving DecidableEq

/-- Observable events of one `sendWeatherNotification` call:
`bgShow` is `registration.showNotification(title, options)`,
`warnBgFailed` the `console.warn` in the `catch`,
`fgShow` is `new Notification(title, options)`, and
`warnFgFailed` the `console.warn` around it. -/
inductive NotifyEvent where
  | bgShow (title tag : String)
  | warnBgFailed
  | fgShow (title tag : String)
  | warnFgFailed
deriving DecidableEq

/-- `sendWeatherNotification(title, body)` from the source, as the trace of
events it performs in order.  The `try { ... } catch { warn } finally
{ try { new Notification } catch { warn } }` shape means the foreground
attempt runs on every path that reaches the `try`. -/
def sendWeatherNotification (env : NotifyEnv) (title : String) :
    List NotifyEvent :=
  if !env.hasNotificationApi then []
  else if !env.permissionGranted then []
  else
    (if env.hasServiceWorker then
       NotifyEvent.bgShow title (notificationTag title) ::
         (if env.bgSucceeds then [] else [NotifyEvent.warnBgFailed])
     else []) ++
    (NotifyEvent.fgShow title (notificationTag title) ::
      (if env.fgSucceeds then [] else [NotifyEvent.warnFgFailed]))

/-! ### Favorites (`handleFavoriteSave`, `handleFavoriteRemove`) -/

/-- `FavoriteCity` from the source. -/
structure FavoriteCity where
  name : String
  lat : ℚ
  lon : ℚ
deriving DecidableEq

/-- The updater `handleFavoriteSave` passes to `setFavorites`:
`prev.some(city => city.name === selectedCity.name) ? prev
: [selectedCity, ...prev].slice(0, 8)`. -/
def handleFavoriteSave (selectedCity : FavoriteCity)
    (prev : List FavoriteCity) : List FavoriteCity :=
  if prev.any (fun city => city.name == selectedCity.name) then prev
  else (selectedCity :: prev).take 8

/-- The updater `handleFavoriteRemove` passes to `setFavorites`:
`prev.filter(city => city.name !== name)`. -/
def handleFavoriteRemove (name : String) (prev : List FavoriteCity) :
    List FavoriteCity :=
  prev.filter (fun city => city.name != name)

/-! ### Storage (`readStorage`) -/

/-- `readStorage(key, fallback)` from the source.  `getItem` is what
`window.localStorage.getItem(key)` returned (`none` for `null`); `parse`
is `JSON.parse` followed by the `as T` cast, `none` when it throws.  The
source's `if (!stored) return fallback` treats both `null` and the empty
string as absent. -/
def readStorage {α : Type} (getItem : Option String)
    (parse : String → Option α) (fallback : α) : α :=
  match getItem with
  | none => fallback
  | some stored =>
    if stored = "" then fallback
    else
      match parse stored with
      | some v => v
      | none => fallback

/-! ### Search orchestration (`handleSearch`) -/

/-- The `useState` cells of `App` that `handleSearch` touches. -/
structure AppState where
  query : String
  selectedCity : Option FavoriteCity
  weather : Option String
  error : Option String
  isLoading : Bool
deriving DecidableEq

/-- Synchronous block of `handleSearch` before the first `await`
(after validation): `setIsLoading(true); setError(null)`. -/
def searchBlockStart (s : AppState) : AppState :=
  { s with isLoading := true, error := none }

/-- Synchronous block after the geocode resolves, up to the weather
`await`: `setSelectedCity(location); setQuery(location.name)`. -/
def searchBlockResolved (loc : FavoriteCity) (s : AppState) : AppState :=
  { s with selectedCity := some loc, query := loc.name }

/-- Synchronous block after the weather fetch resolves:
`setWeather(weatherResponse); ...` then `finally setIsLoading(false)`. -/
def searchBlockSuccess (w : String) (s : AppState) : AppState :=
  { s with weather := some w, isLoading := false }

/-- The `catch` block (shared by geocode and weather failures):
`setWeather(null); setError(message)` then `finally setIsLoading(false)`. -/
def searchBlockFailure (msg : String) (s : AppState) : AppState :=
  { s with weather := none, error := some msg, isLoading := false }

/-- `const location = preset ?? (await geocodeCity(value))`. -/
def resolveLocation (preset : Option FavoriteCity)
    (geo : Except String FavoriteCity) : Except String FavoriteCity :=
  match preset with
  | some p => Except.ok p
  | none => geo

/-- One complete, uninterleaved run of `handleSearch(preset)`.  `value` is
`(preset?.name ?? query).trim()` read at invocation time (the JS whitespace
trim itself is not re-modelled; no claim depends on it); the `!value` check
on a string is the emptiness test.  `geo` is the geocoding outcome, `fetch`
the weather-fetch outcome (`Except.error` models a rejected promise, whose
message the `catch` displays). -/
def handleSearch (value : String) (preset : Option FavoriteCity)
    (geo : Except String FavoriteCity) (fetch : Except String String)
    (s : AppState) : AppState :=
  if value = "" then { s with error := some "Veuillez saisir une ville." }
  else
    let s1 := searchBlockStart s
    match resolveLocation preset geo with
    | Except.error msg => searchBlockFailure msg s1
    | Except.ok loc =>
      let s2 := searchBlockResolved loc s1
      match fetch with
      | Except.ok w => searchBlockSuccess w s2
      | Except.error msg => searchBlockFailure msg s2

/-- Run a schedule of synchronous blocks (an interleaving of the blocks of
several concurrently running `handleSearch` calls) over the shared state. -/
def runBlocks (blocks : List (AppState → AppState)) (s : AppState) : AppState :=
  blocks.foldl (fun st f => f st) s

/-! ### Concrete data used by witnesses and counterexamples -/

/-- A one-sample hourly series whose single slot (at epoch millisecond
3600000) lies in the future of `now = 0`. -/
def hourlyOne : HourlyData :=
  { time := [3600000]
    temperature_2m := [12]
    weather_code := [0]
    precipitation_probability := [some 40] }

/-- A four-sample ascending hourly series straddling `now = 0`: one past
slot and three future slots. -/
def hourlyFour : HourlyData :=
  { time := [-3600000, 3600000, 7200000, 10800000]
    temperature_2m := [9, 12, 15, 8]
    weather_code := [0, 61, 1, 2]
    precipitation_probability := [some 10, none, some 55, some 0] }

/-- A series whose first future slot, two hours after `now = 0`, carries the
rain-category condition code 61 and temperature 15. -/
def hourlyRainAt2h : HourlyData :=
  { time := [7200000, 10800000]
    temperature_2m := [15, 9]
    weather_code := [61, 0]
    precipitation_probability := [none, some 20] }

/-! ### C1 — Time-Window Extractor -/

theorem getNextHours_eq_take (h : HourlyData) (now : Int) (count : Nat)
    (hcount : 1 ≤ count) :
    getNextHours h now count =
      (((List.range h.time.length).map (sliceAt h)).filter
        (afterNow now)).take count := by
  rw [getNextHours, collectSlices_eq_take now count _ 0 hcount, Nat.sub_zero]

theorem filter_afterNow_length (h : HourlyData) (now : Int) :
    (((List.range h.time.length).map (sliceAt h)).filter
        (afterNow now)).length =
      h.time.countP (fun t => decide (now < t)) := by
  rw [← List.countP_eq_length_filter, List.countP_map]
  have :
      (afterNow now ∘ sliceAt h) =
        fun i => decide (now < h.time.getD i 0) := rfl
  rw [this, countP_range_getD (fun t => decide (now < t)) 0 h.time]

theorem rows_pairwise_date (h : HourlyData)
    (htime : h.time.Pairwise (· < ·)) :
    ((List.range h.time.length).map (sliceAt h)).Pairwise
      (fun a b => a.date < b.date) := by
  rw [List.pairwise_map]
  refine (List.pairwise_lt_range h.time.length).imp_of_mem ?_
  intro i j hi hj hij
  have hi' : i < h.time.length := List.mem_range.mp hi
  have hj' : j < h.time.length := List.mem_range.mp hj
  show (sliceAt h i).date < (sliceAt h j).date
  show h.time.getD i 0 < h.time.getD j 0
  rw [List.getD_eq_getElem _ _ hi', List.getD_eq_getElem _ _ hj']
  exact List.pairwise_iff_getElem.mp htime i j hi' hj' hij

/-- C1 (amended: `count ≥ 1`; the source's only call sites use the default
`HOUR_LOOKAHEAD = 4`): for every hourly series, every `now` and every
positive `count`, the window returned by `getNextHours` has length
`min count (number of samples with timestamp strictly greater than now)`,
every slice in it has a timestamp strictly greater than `now`, and if the
series is ordered by time strictly ascending then the window's timestamps
are strictly increasing. -/
theorem getNextHours_window_spec (h : HourlyData) (now : Int) (count : Nat)
    (hcount : 1 ≤ count) :
    (getNextHours h now count).length =
        min count (h.time.countP (fun t => decide (now < t)))
      ∧ (∀ s ∈ getNextHours h now count, now < s.date)
      ∧ (h.time.Pairwise (· < ·) →
          (getNextHours h now count).Pairwise (fun a b => a.date < b.date)) := by
  refine ⟨?_, ?_, ?_⟩
  · rw [getNextHours_eq_take h now count hcount, List.length_take,
      filter_afterNow_length h now]
  · intro s hs
    exact (mem_collectSlices now count _ 0 s hs).2
  · intro htime
    rw [getNextHours_eq_take h now count hcount]
    exact (((rows_pairwise_date h htime).filter (afterNow now)).sublist
      (List.take_sublist _ _))

/-- Witness for `getNextHours_window_spec` at `hourlyFour`, `now = 0`,
`count = 2`. -/
theorem getNextHours_window_spec_witness :
    1 ≤ 2
    ∧ ((getNextHours hourlyFour 0 2).length =
          min 2 (hourlyFour.time.countP (fun t => decide ((0 : Int) < t)))
        ∧ (∀ s ∈ getNextHours hourlyFour 0 2, (0 : Int) < s.date)
        ∧ (hourlyFour.time.Pairwise (· < ·) →
            (getNextHours hourlyFour 0 2).Pairwise
              (fun a b => a.date < b.date))) :=
  ⟨by decide, getNextHours_window_spec hourlyFour 0 2 (by decide)⟩

/-- C1 counterexample: with `count = 0` the source's stop condition
`slices.length === count` never fires (it is checked only after a push), so
the window contains every qualifying sample instead of
`min 0 (#qualifying) = 0` of them. -/
theorem getNextHours_count_zero_cex :
    (getNextHours hourlyOne 0 0).length = 1
      ∧ min 0 (hourlyOne.time.countP (fun t => decide ((0 : Int) < t))) = 0 := by
  constructor
  · rfl
  · rfl

/-! ### C2, C3 — Alert Evaluator -/

theorem heat_beq_rain : (AlertKind.heat == AlertKind.rain) = false := rfl

theorem rain_beq_heat : (AlertKind.rain == AlertKind.heat) = false := rfl

theorem rain_beq_rain : (AlertKind.rain == AlertKind.rain) = true := rfl

theorem heat_beq_heat : (AlertKind.heat == AlertKind.heat) = true := rfl

/-- C2: per evaluation, `checkAlerts` emits at most one rain intent; it is
driven by the first window slice whose condition code lies in the rain code
set, and carries `leadTime now s = max 1 (round ((s.date - now) / 3600000))`;
a first rain slice two hours after `now` yields lead time `2`. -/
theorem checkAlerts_rain_rule (h : HourlyData) (city : String) (now : Int) :
    ((checkAlerts h city now).filter
        (fun i => i.kind == AlertKind.rain)).length ≤ 1
    ∧ (∀ s, (getNextHours h now HOUR_LOOKAHEAD).find? isRainSlice = some s →
        (checkAlerts h city now).filter (fun i => i.kind == AlertKind.rain) =
            [{ kind := AlertKind.rain, location := city,
               leadTimeHours := some (leadTime now s),
               peakTemperature := none }]
          ∧ (s.date = now + 7200000 → leadTime now s = 2))
    ∧ ((getNextHours h now HOUR_LOOKAHEAD).find? isRainSlice = none →
        (checkAlerts h city now).filter
          (fun i => i.kind == AlertKind.rain) = []) := by
  have hlead : ∀ s : HourlySlice, s.date = now + 7200000 → leadTime now s = 2 := by
    intro s hs
    have hq : ((s.date - now : Int) : ℚ) = 7200000 := by
      rw [hs]; push_cast; ring
    rw [leadTime, hq]
    norm_num
  refine ⟨?_, ?_, ?_⟩
  · rcases hr : (getNextHours h now HOUR_LOOKAHEAD).find? isRainSlice
        with _ | s <;>
      rcases hw : (getNextHours h now HOUR_LOOKAHEAD).find?
          (fun s => decide (TEMP_THRESHOLD < s.temperature)) with _ | w <;>
        simp only [checkAlerts, checkAlertsWith, hr, hw,
          List.filter_append] <;>
          simp [heat_beq_rain, rain_beq_rain, heat_beq_heat]
  · intro s' hs'
    refine ⟨?_, fun hd => hlead s' hd⟩
    rcases hw : (getNextHours h now HOUR_LOOKAHEAD).find?
        (fun s => decide (TEMP_THRESHOLD < s.temperature)) with _ | w <;>
      simp only [checkAlerts, checkAlertsWith, hs', hw,
        List.filter_append] <;>
        simp [heat_beq_rain, rain_beq_rain, heat_beq_heat]
  · intro hn
    rcases hw : (getNextHours h now HOUR_LOOKAHEAD).find?
        (fun s => decide (TEMP_THRESHOLD < s.temperature)) with _ | w <;>
      simp only [checkAlerts, checkAlertsWith, hn, hw,
        List.filter_append] <;>
        simp [heat_beq_rain, rain_beq_rain, heat_beq_heat]

/-- Witness for `checkAlerts_rain_rule`: the series `hourlyRainAt2h` (rain
code 61 at `now + 2h`) produces exactly one rain intent with lead time 2. -/
theorem checkAlerts_rain_rule_witness :
    (checkAlerts hourlyRainAt2h "Lyon" 0).filter
        (fun i => i.kind == AlertKind.rain) =
      [{ kind := AlertKind.rain, location := "Lyon",
         leadTimeHours := some 2, peakTemperature := none }] := by
  have h := (checkAlerts_rain_rule hourlyRainAt2h "Lyon" 0).2.1
    ⟨7200000, 15, 61, none⟩ (by decide)
  have h2 : leadTime 0 (⟨7200000, 15, 61, none⟩ : HourlySlice) = 2 :=
    h.2 (by decide)
  rw [h.1, h2]

/-- C3: per evaluation (for any threshold), `checkAlertsWith` emits at most
one heat intent; it is driven by the first window slice whose temperature
strictly exceeds the threshold and carries that slice's rounded temperature;
the heat rule is independent of the rain rule, every intent is one or the
other, and an evaluation emits at most two intents in total. -/
theorem checkAlerts_heat_rule (t : ℚ) (h : HourlyData) (city : String)
    (now : Int) :
    ((checkAlertsWith t h city now).filter
        (fun i => i.kind == AlertKind.heat)).length ≤ 1
    ∧ (∀ s, (getNextHours h now HOUR_LOOKAHEAD).find?
          (fun s => decide (t < s.temperature)) = some s →
        (checkAlertsWith t h city now).filter
            (fun i => i.kind == AlertKind.heat) =
          [{ kind := AlertKind.heat, location := city, leadTimeHours := none,
             peakTemperature := some (round s.temperature) }])
    ∧ ((getNextHours h now HOUR_LOOKAHEAD).find?
          (fun s => decide (t < s.temperature)) = none →
        (checkAlertsWith t h city now).filter
          (fun i => i.kind == AlertKind.heat) = [])
    ∧ (checkAlertsWith t h city now).length =
        ((checkAlertsWith t h city now).filter
            (fun i => i.kind == AlertKind.rain)).length +
          ((checkAlertsWith t h city now).filter
              (fun i => i.kind == AlertKind.heat)).length
    ∧ (checkAlertsWith t h city now).length ≤ 2 := by
  refine ⟨?_, ?_, ?_, ?_, ?_⟩
  · rcases hr : (getNextHours h now HOUR_LOOKAHEAD).find? isRainSlice
        with _ | s <;>
      rcases hw : (getNextHours h now HOUR_LOOKAHEAD).find?
          (fun s => decide (t < s.temperature)) with _ | w <;>
        simp only [checkAlertsWith, hr, hw, List.filter_append] <;>
          simp [rain_beq_heat, rain_beq_rain, heat_beq_heat]
  · intro s' hs'
    rcases hr : (getNextHours h now HOUR_LOOKAHEAD).find? isRainSlice
        with _ | s <;>
      simp only [checkAlertsWith, hr, hs', List.filter_append] <;>
        simp [rain_beq_heat, rain_beq_rain, heat_beq_heat]
  · intro hn
    rcases hr : (getNextHours h now HOUR_LOOKAHEAD).find? isRainSlice
        with _ | s <;>
      simp only [checkAlertsWith, hr, hn, List.filter_append] <;>
        simp [rain_beq_heat, rain_beq_rain, heat_beq_heat]
  · rcases hr : (getNextHours h now HOUR_LOOKAHEAD).find? isRainSlice
        with _ | s <;>
      rcases hw : (getNextHours h now HOUR_LOOKAHEAD).find?
          (fun s => decide (t < s.temperature)) with _ | w <;>
        simp only [checkAlertsWith, hr, hw, List.filter_append] <;>
          simp [rain_beq_heat, heat_beq_rain, rain_beq_rain, heat_beq_heat]
  · rcases hr : (getNextHours h now HOUR_LOOKAHEAD).find? isRainSlice
        with _ | s <;>
      rcases hw : (getNextHours h now HOUR_LOOKAHEAD).find?
          (fun s => decide (t < s.temperature)) with _ | w <;>
        simp only [checkAlertsWith, hr, hw] <;> simp

/-- Witness for `checkAlerts_heat_rule`: with threshold 10, the series
`hourlyRainAt2h` (first slice temperature 15) yields one heat intent whose
peak temperature is 15, and that evaluation emits two intents in total
(rain and heat both fire). -/
theorem checkAlerts_heat_rule_witness :
    (checkAlertsWith 10 hourlyRainAt2h "Nice" 0).filter
        (fun i => i.kind == AlertKind.heat) =
      [{ kind := AlertKind.heat, location := "Nice", leadTimeHours := none,
         peakTemperature := some 15 }]
    ∧ (checkAlertsWith 10 hourlyRainAt2h "Nice" 0).length ≤ 2 := by
  have h := checkAlerts_heat_rule 10 hourlyRainAt2h "Nice" 0
  have h1 := h.2.1 ⟨7200000, 15, 61, none⟩ (by decide)
  refine ⟨?_, h.2.2.2.2⟩
  rw [h1]
  norm_num

/-! ### C4 — Notification Dispatcher channels -/

/-- An environment in which every platform feature is present and every
delivery attempt succeeds. -/
def envBothOk : NotifyEnv :=
  { hasNotificationApi := true, permissionGranted := true,
    hasServiceWorker := true, bgSucceeds := true, fgSucceeds := true }

/-- An environment in which the background (service-worker) channel is
available but its delivery attempt fails. -/
def envBgFails : NotifyEnv :=
  { hasNotificationApi := true, permissionGranted := true,
    hasServiceWorker := true, bgSucceeds := false, fgSucceeds := true }

/-- C4 counterexample: even when the background service-worker channel is
available and its delivery succeeds, the direct foreground channel is still
attempted — the source puts `new Notification(title, options)` in a
`finally` block, so it runs on every dispatch, not only as a fallback. -/
theorem sendWeatherNotification_always_foreground_cex :
    envBothOk.permissionGranted = true
    ∧ envBothOk.hasServiceWorker = true
    ∧ envBothOk.bgSucceeds = true
    ∧ sendWeatherNotification envBothOk "T" =
        [NotifyEvent.bgShow "T" (notificationTag "T"),
         NotifyEvent.fgShow "T" (notificationTag "T")] :=
  ⟨rfl, rfl, rfl, rfl⟩

/-- C4 (amended): when the Notification API exists and permission is
granted, the background service-worker channel is attempted first whenever
it is available, a background failure only produces a console log (no
user-facing event exists in the trace) and never prevents the foreground
attempt — but the foreground channel is attempted unconditionally (the
`finally` block), not only when the background channel is unavailable or
fails. -/
theorem sendWeatherNotification_channels (env : NotifyEnv) (title : String)
    (hapi : env.hasNotificationApi = true)
    (hperm : env.permissionGranted = true) :
    (env.hasServiceWorker = true →
        (sendWeatherNotification env title).head? =
          some (NotifyEvent.bgShow title (notificationTag title)))
    ∧ (NotifyEvent.warnBgFailed ∈ sendWeatherNotification env title ↔
        env.hasServiceWorker = true ∧ env.bgSucceeds = false)
    ∧ NotifyEvent.fgShow title (notificationTag title) ∈
        sendWeatherNotification env title
    ∧ (env.hasServiceWorker = false →
        (sendWeatherNotification env title).head? =
          some (NotifyEvent.fgShow title (notificationTag title))) := by
  rcases env with ⟨api, perm, sw, bg, fg⟩
  simp only at hapi hperm
  subst hapi hperm
  cases sw <;> cases bg <;> cases fg <;>
    simp [sendWeatherNotification]

/-- Witness for `sendWeatherNotification_channels` in the environment where
the background channel fails: the background attempt comes first, the
failure is logged, and the foreground attempt still happens. -/
theorem sendWeatherNotification_channels_witness :
    ((sendWeatherNotification envBgFails "T").head? =
        some (NotifyEvent.bgShow "T" (notificationTag "T")))
    ∧ NotifyEvent.warnBgFailed ∈ sendWeatherNotification envBgFails "T"
    ∧ NotifyEvent.fgShow "T" (notificationTag "T") ∈
        sendWeatherNotification envBgFails "T" :=
  have h := sendWeatherNotification_channels envBgFails "T" rfl rfl
  ⟨h.1 rfl, h.2.1.mpr ⟨rfl, rfl⟩, h.2.2.1⟩

/-! ### C9 — notification tags -/

theorem string_append_cancel_left (a b c : String) (h : a ++ b = a ++ c) :
    b = c := by
  have hd := congrArg String.data h
  simp only [String.data_append] at hd
  have h2 := List.append_cancel_left hd
  cases b
  cases c
  simp only at h2
  rw [h2]

/-- C9: the notification tag is a deterministic function of the alert kind
and the location: identical kind and location give the same tag, and the
same kind with different locations gives different tags. -/
theorem alertTag_deterministic (k k2 : AlertKind) (c1 c2 : String) :
    (k = k2 → c1 = c2 → alertTag k c1 = alertTag k2 c2)
    ∧ (k = k2 → c1 ≠ c2 → alertTag k c1 ≠ alertTag k2 c2) := by
  constructor
  · intro hk hc
    rw [hk, hc]
  · intro hk hc
    subst hk
    intro heq
    apply hc
    cases k <;>
      exact string_append_cancel_left _ _ _
        (string_append_cancel_left _ _ _ heq)

/-- Witness for `alertTag_deterministic` on concrete kinds and cities. -/
theorem alertTag_deterministic_witness :
    alertTag AlertKind.rain "Paris" = alertTag AlertKind.rain "Paris"
    ∧ alertTag AlertKind.rain "Paris" ≠ alertTag AlertKind.rain "Lyon" :=
  ⟨(alertTag_deterministic AlertKind.rain AlertKind.rain "Paris" "Paris").1
      rfl rfl,
   (alertTag_deterministic AlertKind.rain AlertKind.rain "Paris" "Lyon").2
      rfl (by decide)⟩

/-! ### C5 — precipitation surfacing -/

/-- The next-hour precipitation panel of the display layer:
`hourlySlices[0]?.precipitation ?? 0`. -/
def displayedNextHourPrecip (slices : List HourlySlice) : ℚ :=
  (slices.head?.bind (fun s => s.precipitation)).getD 0

/-- The per-slice display line: `slice.precipitation ?? 0`. -/
def displayedSlicePrecip (s : HourlySlice) : ℚ :=
  s.precipitation.getD 0

/-- C5 counterexample: for a series whose first future sample has no
precipitation value, the window slice carries `none`, yet the display layer
renders `0` — exactly the same thing it renders for a true `0%` slice, so
absent data does NOT surface as "no data" on the display layer. -/
theorem display_precip_zero_cex :
    ((getNextHours hourlyFour 0 4).head? =
        some ⟨3600000, 12, 61, none⟩)
    ∧ displayedNextHourPrecip (getNextHours hourlyFour 0 4) = 0
    ∧ displayedNextHourPrecip (getNextHours hourlyFour 0 4) =
        displayedNextHourPrecip [⟨3600000, 12, 61, some 0⟩] := by
  refine ⟨?_, ?_, ?_⟩ <;> rfl

/-- C5 (amended): every slice of the extracted window surfaces the source's
optional precipitation value unchanged — absent stays `none`, which is what
the Alert Evaluator receives — but the display layer maps `none` to `0`. -/
theorem precipitation_surfacing (h : HourlyData) (now : Int) (count : Nat)
    (s : HourlySlice) (hs : s ∈ getNextHours h now count) :
    (∃ i, i < h.time.length ∧ s = sliceAt h i
        ∧ s.precipitation = h.precipitation_probability.getD i none)
    ∧ (s.precipitation = none → displayedSlicePrecip s = 0) := by
  constructor
  · have hmem := (mem_collectSlices now count _ 0 s hs).1
    rcases List.mem_map.mp hmem with ⟨i, hi, hsi⟩
    exact ⟨i, List.mem_range.mp hi, hsi.symm, by rw [← hsi]; rfl⟩
  · intro hnone
    rw [displayedSlicePrecip, hnone]
    rfl

/-- Witness for `precipitation_surfacing`: the second slot of `hourlyFour`
(timestamp 3600000, precipitation absent) reaches the window as `none` and
displays as `0`. -/
theorem precipitation_surfacing_witness :
    (∃ i, i < hourlyFour.time.length
        ∧ (⟨3600000, 12, 61, none⟩ : HourlySlice) = sliceAt hourlyFour i
        ∧ (⟨3600000, 12, 61, none⟩ : HourlySlice).precipitation =
            hourlyFour.precipitation_probability.getD i none)
    ∧ displayedSlicePrecip ⟨3600000, 12, 61, none⟩ = 0 :=
  have h := precipitation_surfacing hourlyFour 0 4
    ⟨3600000, 12, 61, none⟩ (by decide)
  ⟨h.1, h.2 rfl⟩

/-! ### C6 — Favorites Store -/

/-- Eight favorites with pairwise-distinct names, filling the capacity. -/
def prevEight : List FavoriteCity :=
  [⟨"A", 0, 0⟩, ⟨"B", 0, 0⟩, ⟨"C", 0, 0⟩, ⟨"D", 0, 0⟩,
   ⟨"E", 0, 0⟩, ⟨"F", 0, 0⟩, ⟨"G", 0, 0⟩, ⟨"H", 0, 0⟩]

/-- A ninth favorite whose name does not occur in `prevEight`. -/
def cityI : FavoriteCity := ⟨"I", 1, 2⟩

/-- C6: saving an already-present name is a no-op (so saving the same name
twice leaves exactly one entry with that name), saving a 9th distinct name
prepends it and evicts the last entry keeping the length at 8, the
collection never grows past 8, and after a removal the removed name no
longer occurs. -/
theorem favorites_spec (c : FavoriteCity) (prev : List FavoriteCity)
    (name : String) :
    handleFavoriteSave c (handleFavoriteSave c prev) =
        handleFavoriteSave c prev
    ∧ (prev.countP (fun x => x.name == c.name) = 0 →
        (handleFavoriteSave c prev).countP (fun x => x.name == c.name) = 1)
    ∧ (prev.length ≤ 8 → (handleFavoriteSave c prev).length ≤ 8)
    ∧ (prev.length = 8 → prev.all (fun x => x.name != c.name) = true →
        handleFavoriteSave c prev = c :: prev.dropLast
          ∧ (handleFavoriteSave c prev).length = 8)
    ∧ (∀ x ∈ handleFavoriteRemove name prev, x.name ≠ name) := by
  have htake : (c :: prev).take 8 = c :: prev.take 7 := by
    rw [show (8 : Nat) = 7 + 1 from rfl, List.take_succ_cons]
  refine ⟨?_, ?_, ?_, ?_, ?_⟩
  · by_cases hany : prev.any (fun city => city.name == c.name) = true
    · have h1 : handleFavoriteSave c prev = prev := by
        simp only [handleFavoriteSave]
        rw [if_pos hany]
      rw [h1]
      exact h1
    · have h1 : handleFavoriteSave c prev = c :: prev.take 7 := by
        simp only [handleFavoriteSave]
        rw [if_neg hany, htake]
      rw [h1]
      simp only [handleFavoriteSave]
      rw [if_pos (by simp)]
  · intro h0
    have hany : ¬ prev.any (fun city => city.name == c.name) = true := by
      rw [Bool.not_eq_true, List.any_eq_false]
      intro x hx
      have := List.countP_eq_zero.mp h0 x hx
      simpa using this
    simp only [handleFavoriteSave]
    rw [if_neg hany, htake, List.countP_cons]
    have hsub : (prev.take 7).countP (fun x => x.name == c.name) = 0 :=
      Nat.le_zero.mp (h0 ▸ (List.take_sublist 7 prev).countP_le _)
    simp [hsub]
  · intro hlen
    by_cases hany : prev.any (fun city => city.name == c.name) = true
    · simp only [handleFavoriteSave]
      rw [if_pos hany]
      exact hlen
    · simp only [handleFavoriteSave]
      rw [if_neg hany, List.length_take, List.length_cons]
      exact min_le_left 8 (prev.length + 1)
  · intro hlen hall
    have hany : ¬ prev.any (fun city => city.name == c.name) = true := by
      rw [Bool.not_eq_true, List.any_eq_false]
      intro x hx
      have hx' := List.all_eq_true.mp hall x hx
      simpa [bne_iff_ne] using hx'
    have hres : handleFavoriteSave c prev = c :: prev.take 7 := by
      simp only [handleFavoriteSave]
      rw [if_neg hany, htake]
    have hdrop : prev.dropLast = prev.take 7 := by
      rw [List.dropLast_eq_take prev, hlen]
    constructor
    · rw [hres, hdrop]
    · rw [hres, List.length_cons, List.length_take, hlen]
      decide
  · intro x hx
    simp only [handleFavoriteRemove] at hx
    have := List.mem_filter.mp hx
    simpa [bne_iff_ne] using this.2

/-- Witness for `favorites_spec`: saving the 9th distinct city `cityI` on
the full `prevEight` evicts `"H"`, keeps the length at 8, saving it again is
a no-op, and removing `"A"` leaves no entry named `"A"`. -/
theorem favorites_spec_witness :
    handleFavoriteSave cityI (handleFavoriteSave cityI prevEight) =
        handleFavoriteSave cityI prevEight
    ∧ (handleFavoriteSave cityI prevEight).countP
        (fun x => x.name == cityI.name) = 1
    ∧ (handleFavoriteSave cityI prevEight).length ≤ 8
    ∧ handleFavoriteSave cityI prevEight = cityI :: prevEight.dropLast
    ∧ (handleFavoriteSave cityI prevEight).length = 8
    ∧ (∀ x ∈ handleFavoriteRemove "A" prevEight, x.name ≠ "A") :=
  have h := favorites_spec cityI prevEight "A"
  have h4 := h.2.2.2.1 (by decide) (by decide)
  ⟨h.1, h.2.1 (by decide), h.2.2.1 (by decide), h4.1, h4.2, h.2.2.2.2⟩

/-! ### C7, C8 — Search/Refresh Orchestrator -/

/-- A concrete resolved location for search A. -/
def cityParis : FavoriteCity := ⟨"Paris, Ile-de-France, France", 48, 2⟩

/-- A concrete resolved location for search B. -/
def cityLyon : FavoriteCity := ⟨"Lyon, Auvergne-Rhone-Alpes, France", 45, 4⟩

/-- The empty initial application state. -/
def initialState : AppState :=
  { query := "", selectedCity := none, weather := none, error := none,
    isLoading := false }

/-- The interleaving in which search A (Paris) is issued, search B (Lyon) is
issued while A's geocode request is still in flight, B's responses arrive
and B completes, and only then A's stale responses arrive.  Each search's
own blocks appear in program order. -/
def staleSchedule : List (AppState → AppState) :=
  [searchBlockStart,
   searchBlockStart,
   searchBlockResolved cityLyon,
   searchBlockSuccess "weather-lyon",
   searchBlockResolved cityParis,
   searchBlockSuccess "weather-paris"]

/-- C7: `handleSearch` has no request-sequencing guard, so a stale response
of search A that completes after search B has already completed overwrites
B's result: the final state displays A's weather, city and query. -/
theorem handleSearch_stale_overwrite :
    (runBlocks staleSchedule initialState).weather = some "weather-paris"
    ∧ (runBlocks staleSchedule initialState).selectedCity = some cityParis
    ∧ (runBlocks staleSchedule initialState).query = cityParis.name
    ∧ "weather-paris" ≠ "weather-lyon" :=
  ⟨rfl, rfl, rfl, by decide⟩

/-- C8: when the weather fetch fails after a successful location
resolution, the previously displayed weather is cleared, the fetch error
message is shown, and the query text and selected city keep the resolved
canonical location. -/
theorem handleSearch_fetch_failure (value : String)
    (preset : Option FavoriteCity) (geo : Except String FavoriteCity)
    (loc : FavoriteCity) (msg : String) (s : AppState)
    (hval : value ≠ "")
    (hres : resolveLocation preset geo = Except.ok loc) :
    (handleSearch value preset geo (Except.error msg) s).weather = none
    ∧ (handleSearch value preset geo (Except.error msg) s).error = some msg
    ∧ (handleSearch value preset geo (Except.error msg) s).query = loc.name
    ∧ (handleSearch value preset geo (Except.error msg) s).selectedCity =
        some loc := by
  refine ⟨?_, ?_, ?_, ?_⟩ <;>
    simp [handleSearch, hval, hres, searchBlockFailure, searchBlockResolved,
      searchBlockStart]

/-- A state in which an older search's weather is still displayed. -/
def staleState : AppState :=
  { query := "paris", selectedCity := some cityLyon,
    weather := some "weather-lyon", error := none, isLoading := false }

/-- Witness for `handleSearch_fetch_failure`: a failing weather fetch after
resolving Paris clears Lyon's stale weather, shows the fetch error, and
keeps the canonical Paris name as the query. -/
theorem handleSearch_fetch_failure_witness :
    (handleSearch "paris" none (Except.ok cityParis)
        (Except.error "Erreur lors de la recuperation des donnees meteo")
        staleState).weather = none
    ∧ (handleSearch "paris" none (Except.ok cityParis)
        (Except.error "Erreur lors de la recuperation des donnees meteo")
        staleState).error =
          some "Erreur lors de la recuperation des donnees meteo"
    ∧ (handleSearch "paris" none (Except.ok cityParis)
        (Except.error "Erreur lors de la recuperation des donnees meteo")
        staleState).query = cityParis.name
    ∧ (handleSearch "paris" none (Except.ok cityParis)
        (Except.error "Erreur lors de la recuperation des donnees meteo")
        staleState).selectedCity = some cityParis :=
  handleSearch_fetch_failure "paris" none (Except.ok cityParis) cityParis
    "Erreur lors de la recuperation des donnees meteo" staleState
    (by decide) rfl

/-! ### C10 — startup load of favorites -/

/-- C10: whatever `JSON.parse` successfully yields for a non-empty stored
string is returned verbatim by `readStorage` — no capacity bound, no name
deduplication, no shape check is applied at load time. -/
theorem readStorage_returns_parsed {α : Type} (str : String)
    (parse : String → Option α) (v : α) (fallback : α)
    (hne : str ≠ "") (hp : parse str = some v) :
    readStorage (some str) parse fallback = v := by
  simp [readStorage, hne, hp]

/-- A stored favorites array violating both store invariants: 9 entries and
a duplicated name. -/
def oversizedFavorites : List FavoriteCity :=
  [⟨"X", 0, 0⟩, ⟨"X", 0, 0⟩, ⟨"B", 0, 0⟩, ⟨"C", 0, 0⟩, ⟨"D", 0, 0⟩,
   ⟨"E", 0, 0⟩, ⟨"F", 0, 0⟩, ⟨"G", 0, 0⟩, ⟨"H", 0, 0⟩]

/-- Witness for `readStorage_returns_parsed`: a stored array with 9 entries
and a duplicate name is surfaced exactly as parsed. -/
theorem readStorage_returns_parsed_witness :
    oversizedFavorites.length = 9
    ∧ oversizedFavorites.countP (fun x => x.name == "X") = 2
    ∧ readStorage (some "stored") (fun _ => some oversizedFavorites) [] =
        oversizedFavorites :=
  ⟨by decide, by decide,
   readStorage_returns_parsed "stored" (fun _ => some oversizedFavorites)
     oversizedFavorites [] (by decide) rfl⟩

end Meteo
